import Mathlib

/-!
Shallow embedding of `src/swatch.ts` (the `swatch` palette generator of the
colorizr library) and verification of its specification.

Modelling decisions:
* JavaScript numbers that only flow through comparisons, defaulting and the
  static tables are modelled as `ℚ` (every machine float is rational), so the
  option validation is decidable and executable.
* Color coordinates and the dynamic lightness curve live in `ℝ`, because the
  curve uses a real power `(i / (steps - 1)) ** lightnessFactor` (`Real.rpow`).
* The external collaborators (`parseCSS`, `formatCSS`, `isHex`, `isNamedColor`,
  `extractColorParts`) are out of scope per the spec; they are passed in as a
  record of abstract functions, so theorems quantify over their behaviour.
* The fallible control flow (the `invariant` throws, parser/formatter errors)
  is modelled with `Except`.
-/

namespace Colorizr

/-- An LCH color triple (lightness, chroma, hue) in a perceptually uniform
cylindrical space, as produced by the parser collaborator. -/
structure LCH where
  l : ℝ
  c : ℝ
  h : ℝ

/-- Modelled from the spec: the `clamp` helper from `~/modules/utils` (not
under `src/`); "Gamut clamp: bounding a computed value to a range", used as
`clamp(chroma, 0, 0.4)`. Standard `min(max(value, lo), hi)` semantics. -/
noncomputable def clamp (value lo hi : ℝ) : ℝ :=
  min (max value lo) hi

/-- Modelled from the spec: the `invariant` helper from `~/modules/invariant`
(not under `src/`): failures "fail with an error carrying a human-readable
description"; it raises the message when the condition is false. -/
def invariant (condition : Bool) (message : String) : Except String Unit :=
  if condition then Except.ok () else Except.error message

/-- A JavaScript value passed as the `input` argument: a string or any
non-string value (the TS signature says `string`, but the runtime check
`isString` guards against other values). -/
inductive JSInput where
  | str (value : String)
  | nonString
deriving DecidableEq

/-- Modelled from the spec: `isString` from `~/modules/validators` (not under
`src/`); the spec says the input must be a "non-empty textual value" and the
error taxonomy lists "InvalidInput (non-string or empty input)". -/
def isString : JSInput → Bool
  | JSInput.str s => s ≠ ""
  | JSInput.nonString => false

/-- The underlying string of an input value (only used after `isString`). -/
def inputStr : JSInput → String
  | JSInput.str s => s
  | JSInput.nonString => ""

/-- The `SwatchVariant` union type, plus the internal `base` sentinel default. -/
inductive SwatchVariant where
  | base
  | deep
  | neutral
  | pastel
  | subtle
  | vibrant
deriving DecidableEq

/-- The `scale` option: `'dynamic' | 'fixed'`. -/
inductive SwatchScale where
  | dynamic
  | fixed
deriving DecidableEq

/-- The options record after destructuring defaults have been applied. -/
structure SwatchOptions where
  format : Option String
  lightnessFactor : ℚ
  maxLightness : ℚ
  minLightness : ℚ
  scale : SwatchScale
  swatchSteps : ℕ
  variant : SwatchVariant
deriving DecidableEq

/-- The caller-supplied options record (`SwatchOptions` in TS): every
recognized option may be absent. -/
structure SwatchOptionsIn where
  format? : Option String
  lightnessFactor? : Option ℚ
  maxLightness? : Option ℚ
  minLightness? : Option ℚ
  scale? : Option SwatchScale
  swatchSteps? : Option ℕ
  variant? : Option SwatchVariant
deriving DecidableEq

/-- The options record with every option absent (`options = {}` default). -/
def emptyOptions : SwatchOptionsIn :=
  ⟨none, none, none, none, none, none, none⟩

/-- The destructuring defaults of `swatch`:
`lightnessFactor = 1.5, maxLightness = 0.97, minLightness = 0.2,
scale = 'dynamic', swatchSteps = 11, variant = 'base'`. -/
def resolveOptions (o : SwatchOptionsIn) : SwatchOptions :=
  ⟨o.format?, o.lightnessFactor?.getD 1.5, o.maxLightness?.getD 0.97,
   o.minLightness?.getD 0.2, o.scale?.getD SwatchScale.dynamic,
   o.swatchSteps?.getD 11, o.variant?.getD SwatchVariant.base⟩

/-- The error taxonomy of the spec (§7). -/
inductive SwatchError where
  | invalidInput (message : String)
  | invalidOptions (message : String)
  | unparseableColor (message : String)
  | unsupportedFormat (message : String)
deriving DecidableEq

/-- The external collaborators consumed by `swatch`: color parser, color
formatter and the notation classifiers. All are abstract. -/
structure Collaborators where
  parseCSS : String → Except String LCH
  formatCSS : LCH → String → Except String String
  isHex : String → Bool
  isNamedColor : String → Bool
  colorModel : String → String

/-- The variant chroma multiplier lookup
`{base: 1, deep: 0.8, neutral: 0.5, pastel: 0.3, subtle: 0.2, vibrant: 1.25}`. -/
def variantChromaScale : SwatchVariant → ℚ
  | SwatchVariant.base => 1
  | SwatchVariant.deep => 0.8
  | SwatchVariant.neutral => 0.5
  | SwatchVariant.pastel => 0.3
  | SwatchVariant.subtle => 0.2
  | SwatchVariant.vibrant => 1.25

/-- The base-color normalization step of `swatch`: `lch.l = 0.7`,
`lch.c *= chromaScale`, and for the `deep` variant additionally
`lch.l *= 0.7`. -/
noncomputable def applyVariant (lch : LCH) (v : SwatchVariant) : LCH :=
  let l1 : LCH := ⟨0.7, lch.c * (variantChromaScale v : ℝ), lch.h⟩
  if v = SwatchVariant.deep then ⟨l1.l * 0.7, l1.c, l1.h⟩ else l1

/-- The `shadeColor` helper: keeps the hue, takes the target lightness, and
recomputes chroma with the perceptual parabola `4 * L * (1 - L)` (bypassed
when the working chroma is zero), clamped to `[0, 0.4]`. -/
noncomputable def shadeColor (input : LCH) (lightness : ℝ) : LCH :=
  let chromaScale : ℝ := if input.c = 0 then 1 else 4 * lightness * (1 - lightness)
  let chroma := input.c * chromaScale
  let adjustedChroma := clamp chroma 0 0.4
  ⟨lightness, adjustedChroma, input.h⟩

/-- The tone label assigned to step `index` in the dynamic branch:
11-step scheme (50, 100, ..., 900, 950) or 21-step scheme (0, 50, ..., 1000). -/
def toneOf (swatchSteps index : ℕ) : ℕ :=
  if swatchSteps = 11 then
    if index = 0 then 50
    else if index = 10 then 950
    else index * 100
  else
    if index = 0 then 0
    else if index = 1 then 50
    else if index = 20 then 1000
    else (index - 1) * 50 + 50

/-- The dynamic lightness curve:
`maxLightness - (maxLightness - minLightness) * (index / (swatchSteps - 1)) ** lightnessFactor`. -/
noncomputable def dynamicLightness (maxL minL f : ℚ) (steps index : ℕ) : ℝ :=
  (maxL : ℝ) - ((maxL : ℝ) - (minL : ℝ)) *
    ((index : ℝ) / ((steps : ℝ) - 1)) ^ (f : ℝ)

/-- The fixed 11-step tone table of `swatch` (`scale = 'fixed'`). -/
def fixedPalette11 : List (ℕ × ℚ) :=
  [(50, 0.97), (100, 0.92), (200, 0.85), (300, 0.78), (400, 0.69), (500, 0.57),
   (600, 0.46), (700, 0.35), (800, 0.24), (900, 0.18), (950, 0.1)]

/-- The fixed 21-step tone table of `swatch` (`scale = 'fixed'`). -/
def fixedPalette21 : List (ℕ × ℚ) :=
  [(0, 0.99), (50, 0.97), (100, 0.94), (150, 0.91), (200, 0.87), (250, 0.83),
   (300, 0.78), (350, 0.73), (400, 0.67), (450, 0.61), (500, 0.55), (550, 0.49),
   (600, 0.43), (650, 0.38), (700, 0.33), (750, 0.28), (800, 0.23), (850, 0.19),
   (900, 0.15), (950, 0.1), (1000, 0.05)]

/-- The tone → lightness table (`palette` in the source): the dynamic loop or
the fixed lookup, ascending by tone label as `Object.entries` yields it. -/
noncomputable def buildPalette (scale : SwatchScale) (steps : ℕ)
    (maxL minL f : ℚ) : List (ℕ × ℝ) :=
  match scale with
  | SwatchScale.dynamic =>
      (List.range steps).map fun index =>
        (toneOf steps index, dynamicLightness maxL minL f steps index)
  | SwatchScale.fixed =>
      (if steps = 11 then fixedPalette11 else fixedPalette21).map fun p =>
        (p.1, (p.2 : ℝ))

/-- The tone table built by `swatch` for a resolved options record. -/
noncomputable def paletteOf (o : SwatchOptions) : List (ℕ × ℝ) :=
  buildPalette o.scale o.swatchSteps o.maxLightness o.minLightness o.lightnessFactor

/-- The output-assembly step: format every shaded color, propagating the
formatter failures (`UnsupportedFormat`), exactly as the final `reduce` with a
throwing `formatCSS` does. -/
def formatAll (env : Collaborators) (fmt : String) :
    List (ℕ × LCH) → Except SwatchError (List (ℕ × String))
  | [] => Except.ok []
  | p :: rest =>
    match env.formatCSS p.2 fmt with
    | Except.error m => Except.error (SwatchError.unsupportedFormat m)
    | Except.ok s =>
      match formatAll env fmt rest with
      | Except.error e => Except.error e
      | Except.ok tail => Except.ok ((p.1, s) :: tail)

/-- The validation message of the lightness-bounds invariant (source line 116). -/
def lightnessMessage : String :=
  "maxLightness must be greater than minLightness and within the range [0, 1]."

/-- The validation message of the swatch-steps invariant (source line 121). -/
def stepsMessage : String :=
  "swatchSteps must be either 11 or 21."

/-- Modelled from the spec: the text of `MESSAGES.inputString` from
`~/modules/constants` (not under `src/`); its exact wording is not in scope,
only that the failure is the `InvalidInput` kind. -/
def inputStringMessage : String :=
  "input must be a string"

/-- The body of `swatch` after the input check and option defaulting: option
validation, parse, variant normalization, output format inference, tone
table, shading, formatting. -/
noncomputable def swatchCore (env : Collaborators) (s : String)
    (o : SwatchOptions) : Except SwatchError (List (ℕ × String)) :=
  match invariant
      (decide (o.maxLightness > o.minLightness ∧ o.maxLightness ≤ 1 ∧ o.minLightness ≥ 0))
      lightnessMessage with
  | Except.error m => Except.error (SwatchError.invalidOptions m)
  | Except.ok _ =>
    match invariant (decide (o.swatchSteps = 11 ∨ o.swatchSteps = 21)) stepsMessage with
    | Except.error m => Except.error (SwatchError.invalidOptions m)
    | Except.ok _ =>
      match env.parseCSS s with
      | Except.error m => Except.error (SwatchError.unparseableColor m)
      | Except.ok lch0 =>
        let lch := applyVariant lch0 o.variant
        let colorFormat :=
          if env.isHex s || env.isNamedColor s then "hex" else env.colorModel s
        let shaded := (paletteOf o).map fun p => (p.1, shadeColor lch p.2)
        formatAll env (o.format.getD colorFormat) shaded

/-- The `swatch` entry point: the input-string invariant, then the defaulted
and validated pipeline of `swatchCore`. -/
noncomputable def swatch (env : Collaborators) (input : JSInput)
    (options : SwatchOptionsIn) : Except SwatchError (List (ℕ × String)) :=
  match invariant (isString input) inputStringMessage with
  | Except.error m => Except.error (SwatchError.invalidInput m)
  | Except.ok _ => swatchCore env (inputStr input) (resolveOptions options)

/-- The validity predicate enforced by the two option invariants. -/
def validOptions (r : SwatchOptions) : Prop :=
  (r.maxLightness > r.minLightness ∧ r.maxLightness ≤ 1 ∧ r.minLightness ≥ 0) ∧
    (r.swatchSteps = 11 ∨ r.swatchSteps = 21)

instance (r : SwatchOptions) : Decidable (validOptions r) := by
  unfold validOptions
  infer_instance

/-- The tone label lists of the spec: 11-step `{50, 100, ..., 900, 950}` and
21-step `{0, 50, 100, ..., 950, 1000}`. -/
def expectedTones (steps : ℕ) : List ℕ :=
  if steps = 11 then
    [50, 100, 200, 300, 400, 500, 600, 700, 800, 900, 950]
  else
    [0, 50, 100, 150, 200, 250, 300, 350, 400, 450, 500, 550, 600, 650, 700,
     750, 800, 850, 900, 950, 1000]

/-- Test collaborators with constant behaviour, for concrete evaluations. -/
noncomputable def constEnv : Collaborators :=
  ⟨fun _ => Except.ok ⟨0.5, 0.1, 200⟩, fun _ _ => Except.ok "c",
   fun _ => true, fun _ => false, fun _ => "oklch"⟩

/-- Options selecting the fixed scale, everything else defaulted. -/
def fixedOptions : SwatchOptionsIn :=
  ⟨none, none, none, none, some SwatchScale.fixed, none, none⟩

/-- A sample chromatic color for concrete instantiations. -/
noncomputable def testColor : LCH :=
  ⟨0.5, 0.1, 20⟩

/-- The 11-step fixed table exactly as the spec enumerates it in §4.3:
`{50:0.97, 100:0.92, 200:0.85, 300:0.78, 400:0.69, 500:0.57, 600:0.46,
700:0.35, 800:0.24, 900:0.18, 950:0.10}`. -/
def specFixedTable11 : List (ℕ × ℚ) :=
  [(50, 0.97), (100, 0.92), (200, 0.85), (300, 0.78), (400, 0.69), (500, 0.57),
   (600, 0.46), (700, 0.35), (800, 0.24), (900, 0.18), (950, 0.10)]

/-- The 21-step fixed table exactly as the spec enumerates it in §4.3:
`{0:0.99, 50:0.97, 100:0.94, 150:0.91, 200:0.87, 250:0.83, 300:0.78,
350:0.73, 400:0.67, 450:0.61, 500:0.55, 550:0.49, 600:0.43, 650:0.38,
700:0.33, 750:0.28, 800:0.23, 850:0.19, 900:0.15, 950:0.10, 1000:0.05}`. -/
def specFixedTable21 : List (ℕ × ℚ) :=
  [(0, 0.99), (50, 0.97), (100, 0.94), (150, 0.91), (200, 0.87), (250, 0.83),
   (300, 0.78), (350, 0.73), (400, 0.67), (450, 0.61), (500, 0.55), (550, 0.49),
   (600, 0.43), (650, 0.38), (700, 0.33), (750, 0.28), (800, 0.23), (850, 0.19),
   (900, 0.15), (950, 0.10), (1000, 0.05)]

/-- The variant normalization with the deep lightness multiplication removed,
for the spec's §9 dead-code question: only `lch.l = 0.7; lch.c *= chromaScale`. -/
noncomputable def applyVariantNoDeep (lch : LCH) (v : SwatchVariant) : LCH :=
  ⟨0.7, lch.c * (variantChromaScale v : ℝ), lch.h⟩

/-- The `swatchCore` pipeline of the hypothetical program without the deep
lightness multiplication; otherwise identical to `swatchCore`. -/
noncomputable def swatchCoreNoDeep (env : Collaborators) (s : String)
    (o : SwatchOptions) : Except SwatchError (List (ℕ × String)) :=
  match invariant
      (decide (o.maxLightness > o.minLightness ∧ o.maxLightness ≤ 1 ∧ o.minLightness ≥ 0))
      lightnessMessage with
  | Except.error m => Except.error (SwatchError.invalidOptions m)
  | Except.ok _ =>
    match invariant (decide (o.swatchSteps = 11 ∨ o.swatchSteps = 21)) stepsMessage with
    | Except.error m => Except.error (SwatchError.invalidOptions m)
    | Except.ok _ =>
      match env.parseCSS s with
      | Except.error m => Except.error (SwatchError.unparseableColor m)
      | Except.ok lch0 =>
        let lch := applyVariantNoDeep lch0 o.variant
        let colorFormat :=
          if env.isHex s || env.isNamedColor s then "hex" else env.colorModel s
        let shaded := (paletteOf o).map fun p => (p.1, shadeColor lch p.2)
        formatAll env (o.format.getD colorFormat) shaded

/-- The `swatch` entry point of the hypothetical program without the deep
lightness multiplication. -/
noncomputable def swatchNoDeep (env : Collaborators) (input : JSInput)
    (options : SwatchOptionsIn) : Except SwatchError (List (ℕ × String)) :=
  match invariant (isString input) inputStringMessage with
  | Except.error m => Except.error (SwatchError.invalidInput m)
  | Except.ok _ => swatchCoreNoDeep env (inputStr input) (resolveOptions options)

section Lemmas

lemma invariant_ok {b : Bool} {msg : String} {u : Unit}
    (h : invariant b msg = Except.ok u) : b = true := by
  cases b with
  | true => rfl
  | false => simp [invariant] at h

lemma invariant_true {msg : String} : invariant true msg = Except.ok () := rfl

lemma invariant_false {msg : String} : invariant false msg = Except.error msg := rfl

lemma applyVariant_c (lch : LCH) (v : SwatchVariant) :
    (applyVariant lch v).c = lch.c * (variantChromaScale v : ℝ) := by
  unfold applyVariant
  split <;> rfl

lemma applyVariant_h (lch : LCH) (v : SwatchVariant) :
    (applyVariant lch v).h = lch.h := by
  unfold applyVariant
  split <;> rfl

lemma shadeColor_c (input : LCH) (lightness : ℝ) :
    (shadeColor input lightness).c =
      clamp (input.c * (if input.c = 0 then 1 else 4 * lightness * (1 - lightness)))
        0 0.4 := rfl

lemma shadeColor_congr {a b : LCH} (hc : a.c = b.c) (hh : a.h = b.h)
    (lightness : ℝ) : shadeColor a lightness = shadeColor b lightness := by
  unfold shadeColor
  rw [hc, hh]

lemma clamp_nonneg (v hi : ℝ) (h : 0 ≤ hi) : 0 ≤ clamp v 0 hi := by
  unfold clamp
  exact le_min (le_max_right v 0) h

lemma clamp_le (v hi : ℝ) : clamp v 0 hi ≤ hi := by
  unfold clamp
  exact min_le_right _ _

lemma clamp_mono {a b : ℝ} (lo hi : ℝ) (h : a ≤ b) :
    clamp a lo hi ≤ clamp b lo hi := by
  unfold clamp
  exact min_le_min (max_le_max h le_rfl) le_rfl

lemma clamp_of_nonpos {v : ℝ} (hi : ℝ) (h : v ≤ 0) (hhi : 0 ≤ hi) :
    clamp v 0 hi = 0 := by
  unfold clamp
  rw [max_eq_right h, min_eq_left hhi]

lemma clamp_of_mem {v hi : ℝ} (h0 : 0 ≤ v) (h1 : v ≤ hi) :
    clamp v 0 hi = v := by
  unfold clamp
  rw [max_eq_left h0, min_eq_left h1]

lemma formatAll_keys (env : Collaborators) (fmt : String) :
    ∀ (l : List (ℕ × LCH)) (r : List (ℕ × String)),
      formatAll env fmt l = Except.ok r → r.map Prod.fst = l.map Prod.fst := by
  intro l
  induction l with
  | nil =>
    intro r h
    simp only [formatAll] at h
    cases h
    rfl
  | cons p rest ih =>
    intro r h
    simp only [formatAll] at h
    cases hf : env.formatCSS p.2 fmt with
    | error m => rw [hf] at h; cases h
    | ok s =>
      rw [hf] at h
      cases ht : formatAll env fmt rest with
      | error e => rw [ht] at h; cases h
      | ok tail =>
        rw [ht] at h
        cases h
        simp [ih tail ht]

lemma formatAll_error_shape (env : Collaborators) (fmt : String) :
    ∀ (l : List (ℕ × LCH)) (e : SwatchError),
      formatAll env fmt l = Except.error e →
        ∃ m, e = SwatchError.unsupportedFormat m := by
  intro l
  induction l with
  | nil =>
    intro e h
    simp only [formatAll] at h
    cases h
  | cons p rest ih =>
    intro e h
    simp only [formatAll] at h
    cases hf : env.formatCSS p.2 fmt with
    | error m =>
      rw [hf] at h
      cases h
      exact ⟨m, rfl⟩
    | ok s =>
      rw [hf] at h
      cases ht : formatAll env fmt rest with
      | error e2 =>
        rw [ht] at h
        cases h
        exact ih e ht
      | ok tail => rw [ht] at h; cases h

lemma dynamic_keys (steps : ℕ) (a b f : ℚ) :
    (buildPalette SwatchScale.dynamic steps a b f).map Prod.fst =
      (List.range steps).map (toneOf steps) := by
  simp only [buildPalette, List.map_map]
  rfl

lemma fixed_keys (steps : ℕ) (a b f : ℚ) :
    (buildPalette SwatchScale.fixed steps a b f).map Prod.fst =
      (if steps = 11 then fixedPalette11 else fixedPalette21).map Prod.fst := by
  simp only [buildPalette, List.map_map]
  rfl

lemma paletteOf_keys (r : SwatchOptions)
    (h : r.swatchSteps = 11 ∨ r.swatchSteps = 21) :
    (paletteOf r).map Prod.fst = expectedTones r.swatchSteps := by
  unfold paletteOf
  cases hs : r.scale
  · rw [dynamic_keys]
    rcases h with h | h <;> rw [h] <;> decide
  · rw [fixed_keys]
    rcases h with h | h <;> rw [h] <;> decide

lemma swatch_str (env : Collaborators) (s : String) (options : SwatchOptionsIn)
    (hs : s ≠ "") :
    swatch env (JSInput.str s) options =
      swatchCore env s (resolveOptions options) := by
  unfold swatch
  have h : isString (JSInput.str s) = true := by simp [isString, hs]
  rw [h]
  rfl

lemma swatchCore_valid (env : Collaborators) (s : String) (o : SwatchOptions)
    (h : validOptions o) :
    swatchCore env s o =
      match env.parseCSS s with
      | Except.error m => Except.error (SwatchError.unparseableColor m)
      | Except.ok lch0 =>
        formatAll env
          (o.format.getD
            (if env.isHex s || env.isNamedColor s then "hex" else env.colorModel s))
          ((paletteOf o).map fun p =>
            (p.1, shadeColor (applyVariant lch0 o.variant) p.2)) := by
  obtain ⟨h1, h2⟩ := h
  unfold swatchCore
  rw [decide_eq_true h1, decide_eq_true h2]
  rfl

lemma swatchCore_keys (env : Collaborators) (s : String) (r : SwatchOptions)
    (m : List (ℕ × String)) (h : swatchCore env s r = Except.ok m) :
    m.map Prod.fst = expectedTones r.swatchSteps := by
  unfold swatchCore at h
  cases h1 : invariant
      (decide (r.maxLightness > r.minLightness ∧ r.maxLightness ≤ 1 ∧ r.minLightness ≥ 0))
      lightnessMessage with
  | error msg => rw [h1] at h; exact absurd h (by simp)
  | ok u1 =>
    rw [h1] at h
    cases h2 : invariant (decide (r.swatchSteps = 11 ∨ r.swatchSteps = 21)) stepsMessage with
    | error msg => rw [h2] at h; exact absurd h (by simp)
    | ok u2 =>
      rw [h2] at h
      have hsteps : r.swatchSteps = 11 ∨ r.swatchSteps = 21 :=
        of_decide_eq_true (invariant_ok h2)
      cases hp : env.parseCSS s with
      | error msg => rw [hp] at h; exact absurd h (by simp)
      | ok lch0 =>
        rw [hp] at h
        have hk := formatAll_keys env _ _ m h
        rw [hk, List.map_map]
        exact paletteOf_keys r hsteps

lemma shade_applyVariant_c_zero (lch : LCH) (h : lch.c = 0) (v : SwatchVariant)
    (L : ℝ) : (shadeColor (applyVariant lch v) L).c = 0 := by
  have h1 : (applyVariant lch v).c = 0 := by rw [applyVariant_c, h, zero_mul]
  rw [shadeColor_c, h1]
  norm_num [clamp, min_def, max_def]

lemma formatAll_constEnv (fmt : String) (l : List (ℕ × LCH)) :
    formatAll constEnv fmt l = Except.ok (l.map fun p => (p.1, "c")) := by
  induction l with
  | nil => rfl
  | cons p rest ih =>
    simp only [formatAll, List.map]
    rw [show constEnv.formatCSS p.2 fmt = Except.ok "c" from rfl, ih]

lemma valid_default : validOptions (resolveOptions emptyOptions) := by
  refine ⟨⟨?_, ?_, ?_⟩, Or.inl rfl⟩ <;> norm_num [resolveOptions, emptyOptions]

lemma valid_fixed : validOptions (resolveOptions fixedOptions) := by
  refine ⟨⟨?_, ?_, ?_⟩, Or.inl rfl⟩ <;> norm_num [resolveOptions, fixedOptions]

lemma swatch_constEnv_eval :
    swatch constEnv (JSInput.str "red") emptyOptions =
      Except.ok ((paletteOf (resolveOptions emptyOptions)).map fun p =>
        (p.1, "c")) := by
  rw [swatch_str constEnv "red" emptyOptions (by decide)]
  rw [swatchCore_valid constEnv "red" (resolveOptions emptyOptions) valid_default]
  simp only [show constEnv.parseCSS "red" = Except.ok ⟨0.5, 0.1, 200⟩ from rfl,
    formatAll_constEnv, List.map_map]
  rfl

lemma paletteOf_fixed_eq (r₁ r₂ : SwatchOptions)
    (h₁ : r₁.scale = SwatchScale.fixed) (h₂ : r₂.scale = SwatchScale.fixed)
    (hst : r₁.swatchSteps = r₂.swatchSteps) : paletteOf r₁ = paletteOf r₂ := by
  unfold paletteOf
  rw [h₁, h₂, hst]
  rfl

lemma swatchCore_noDeep_eq (env : Collaborators) (s : String)
    (o : SwatchOptions) : swatchCore env s o = swatchCoreNoDeep env s o := by
  unfold swatchCore swatchCoreNoDeep
  cases h1 : invariant
      (decide (o.maxLightness > o.minLightness ∧ o.maxLightness ≤ 1 ∧ o.minLightness ≥ 0))
      lightnessMessage with
  | error msg => rfl
  | ok u1 =>
    cases h2 : invariant (decide (o.swatchSteps = 11 ∨ o.swatchSteps = 21)) stepsMessage with
    | error msg => rfl
    | ok u2 =>
      cases hp : env.parseCSS s with
      | error msg => rfl
      | ok lch0 =>
        have hmap : ∀ p : ℕ × ℝ,
            (p.1, shadeColor (applyVariant lch0 o.variant) p.2) =
              (p.1, shadeColor (applyVariantNoDeep lch0 o.variant) p.2) := by
          intro p
          rw [shadeColor_congr (a := applyVariant lch0 o.variant)
            (b := applyVariantNoDeep lch0 o.variant) (applyVariant_c lch0 o.variant)
            (applyVariant_h lch0 o.variant) p.2]
        simp only [List.map_congr_left fun p _ => hmap p]

end Lemmas

section Claims

/-- C1: for every call with `scale = 'dynamic'`, the tone table entry for
step index `i` carries target lightness exactly
`maxLightness - (maxLightness - minLightness) * (i / (swatchSteps - 1)) ^ lightnessFactor`
at the resolved option values, and each of the curve options resolves to its
default 1.5 / 0.97 / 0.2 when absent. -/
theorem c1_dynamic_lightness_formula (o : SwatchOptionsIn)
    (hsc : (resolveOptions o).scale = SwatchScale.dynamic)
    (i : ℕ) (hi : i < (resolveOptions o).swatchSteps) :
    (toneOf (resolveOptions o).swatchSteps i,
        ((resolveOptions o).maxLightness : ℝ) -
          (((resolveOptions o).maxLightness : ℝ) -
            ((resolveOptions o).minLightness : ℝ)) *
            ((i : ℝ) / (((resolveOptions o).swatchSteps : ℝ) - 1)) ^
              ((resolveOptions o).lightnessFactor : ℝ))
      ∈ paletteOf (resolveOptions o) ∧
    (o.lightnessFactor? = none → (resolveOptions o).lightnessFactor = 1.5) ∧
    (o.maxLightness? = none → (resolveOptions o).maxLightness = 0.97) ∧
    (o.minLightness? = none → (resolveOptions o).minLightness = 0.2) := by
  refine ⟨?_, ?_, ?_, ?_⟩
  · unfold paletteOf
    rw [hsc]
    simp only [buildPalette]
    exact List.mem_map.mpr ⟨i, List.mem_range.mpr hi, rfl⟩
  · intro h
    simp [resolveOptions, h]
  · intro h
    simp [resolveOptions, h]
  · intro h
    simp [resolveOptions, h]

/-- Witness for C1 at the all-absent options record and step index 3. -/
theorem c1_dynamic_lightness_formula_witness :
    (toneOf (resolveOptions emptyOptions).swatchSteps 3,
        ((resolveOptions emptyOptions).maxLightness : ℝ) -
          (((resolveOptions emptyOptions).maxLightness : ℝ) -
            ((resolveOptions emptyOptions).minLightness : ℝ)) *
            (((3 : ℕ) : ℝ) /
              (((resolveOptions emptyOptions).swatchSteps : ℝ) - 1)) ^
              ((resolveOptions emptyOptions).lightnessFactor : ℝ))
      ∈ paletteOf (resolveOptions emptyOptions) ∧
    (emptyOptions.lightnessFactor? = none →
      (resolveOptions emptyOptions).lightnessFactor = 1.5) ∧
    (emptyOptions.maxLightness? = none →
      (resolveOptions emptyOptions).maxLightness = 0.97) ∧
    (emptyOptions.minLightness? = none →
      (resolveOptions emptyOptions).minLightness = 0.2) :=
  c1_dynamic_lightness_formula emptyOptions rfl 3 (by decide)

/-- C3: for any parsed color with nonnegative chroma, any variant and any tone
of the built tone table, the chroma of the intermediate shaded color lies in
the closed interval `[0, 0.4]`. -/
theorem c3_chroma_in_range (lch : LCH) (hc : 0 ≤ lch.c) (v : SwatchVariant)
    (r : SwatchOptions) (t : ℕ) (L : ℝ) (hmem : (t, L) ∈ paletteOf r) :
    0 ≤ (shadeColor (applyVariant lch v) L).c ∧
      (shadeColor (applyVariant lch v) L).c ≤ 0.4 := by
  rw [shadeColor_c]
  exact ⟨clamp_nonneg _ _ (by norm_num), clamp_le _ _⟩

/-- Witness for C3 at a concrete color, the base variant and tone 50 of the
fixed 11-step table. -/
theorem c3_chroma_in_range_witness :
    0 ≤ (shadeColor (applyVariant ⟨0.5, 0.1, 200⟩ SwatchVariant.base)
          ((0.97 : ℚ) : ℝ)).c ∧
      (shadeColor (applyVariant ⟨0.5, 0.1, 200⟩ SwatchVariant.base)
          ((0.97 : ℚ) : ℝ)).c ≤ 0.4 := by
  refine c3_chroma_in_range ⟨0.5, 0.1, 200⟩ (by norm_num) SwatchVariant.base
    (resolveOptions fixedOptions) 50 ((0.97 : ℚ) : ℝ) ?_
  show ((50 : ℕ), ((0.97 : ℚ) : ℝ)) ∈
    List.map (fun p : ℕ × ℚ => (p.1, (p.2 : ℝ))) fixedPalette11
  exact List.mem_map_of_mem (fun p : ℕ × ℚ => (p.1, (p.2 : ℝ)))
    (show ((50 : ℕ), (0.97 : ℚ)) ∈ fixedPalette11 from List.mem_cons_self _ _)

/-- C4: an achromatic parsed color (chroma 0) yields an intermediate shaded
color of chroma exactly 0 at every tone, for every variant and tone table. -/
theorem c4_achromatic_stays_achromatic (lch : LCH) (hc : lch.c = 0)
    (v : SwatchVariant) (r : SwatchOptions) (t : ℕ) (L : ℝ)
    (hmem : (t, L) ∈ paletteOf r) :
    (shadeColor (applyVariant lch v) L).c = 0 := by
  have h1 : (applyVariant lch v).c = 0 := by rw [applyVariant_c, hc, zero_mul]
  rw [shadeColor_c, h1]
  norm_num [clamp, min_def, max_def]

/-- Witness for C4 at a concrete achromatic color, the deep variant and tone
50 of the fixed 11-step table. -/
theorem c4_achromatic_stays_achromatic_witness :
    (shadeColor (applyVariant ⟨0.3, 0, 100⟩ SwatchVariant.deep)
        ((0.97 : ℚ) : ℝ)).c = 0 := by
  refine c4_achromatic_stays_achromatic ⟨0.3, 0, 100⟩ rfl SwatchVariant.deep
    (resolveOptions fixedOptions) 50 ((0.97 : ℚ) : ℝ) ?_
  show ((50 : ℕ), ((0.97 : ℚ) : ℝ)) ∈
    List.map (fun p : ℕ × ℚ => (p.1, (p.2 : ℝ))) fixedPalette11
  exact List.mem_map_of_mem (fun p : ℕ × ℚ => (p.1, (p.2 : ℝ)))
    (show ((50 : ℕ), (0.97 : ℚ)) ∈ fixedPalette11 from List.mem_cons_self _ _)

/-- C5: with the dynamic scale, a positive lightness factor and any valid
lightness bounds, the lightness sequence starts at `maxLightness`, ends at
`minLightness`, and is strictly decreasing in the step index. -/
theorem c5_dynamic_endpoints_monotone (maxL minL f : ℚ) (hf : 0 < f)
    (hml : minL < maxL) (hmax1 : maxL ≤ 1) (hmin0 : 0 ≤ minL)
    (steps : ℕ) (hs : steps = 11 ∨ steps = 21) :
    dynamicLightness maxL minL f steps 0 = (maxL : ℝ) ∧
    dynamicLightness maxL minL f steps (steps - 1) = (minL : ℝ) ∧
    ∀ i j : ℕ, i < j → j < steps →
      dynamicLightness maxL minL f steps j < dynamicLightness maxL minL f steps i := by
  have h2 : (2 : ℕ) ≤ steps := by rcases hs with h | h <;> omega
  have hd : (0 : ℝ) < (steps : ℝ) - 1 := by
    have h2R : (2 : ℝ) ≤ (steps : ℝ) := by exact_mod_cast h2
    linarith
  have hfR : (0 : ℝ) < (f : ℝ) := by exact_mod_cast hf
  have hD : (0 : ℝ) < (maxL : ℝ) - (minL : ℝ) := by
    have hmlR : (minL : ℝ) < (maxL : ℝ) := by exact_mod_cast hml
    linarith
  refine ⟨?_, ?_, ?_⟩
  · unfold dynamicLightness
    rw [Nat.cast_zero, zero_div, Real.zero_rpow hfR.ne']
    ring
  · unfold dynamicLightness
    have hcast : ((steps - 1 : ℕ) : ℝ) = (steps : ℝ) - 1 := by
      have h1 : (1 : ℕ) ≤ steps := by omega
      rw [Nat.cast_sub h1, Nat.cast_one]
    rw [hcast, div_self hd.ne', Real.one_rpow]
    ring
  · intro i j hij hj
    unfold dynamicLightness
    have hbase : ((i : ℝ) / ((steps : ℝ) - 1)) < ((j : ℝ) / ((steps : ℝ) - 1)) := by
      have hijR : (i : ℝ) < (j : ℝ) := by exact_mod_cast hij
      exact div_lt_div_of_pos_right hijR hd
    have hnn : (0 : ℝ) ≤ (i : ℝ) / ((steps : ℝ) - 1) :=
      div_nonneg (Nat.cast_nonneg i) hd.le
    have hpow := Real.rpow_lt_rpow hnn hbase hfR
    have hmul := mul_lt_mul_of_pos_left hpow hD
    linarith

/-- Witness for C5 at the default curve parameters and 11 steps. -/
theorem c5_dynamic_endpoints_monotone_witness :
    dynamicLightness 0.97 0.2 1.5 11 0 = ((0.97 : ℚ) : ℝ) ∧
    dynamicLightness 0.97 0.2 1.5 11 (11 - 1) = ((0.2 : ℚ) : ℝ) ∧
    dynamicLightness 0.97 0.2 1.5 11 1 < dynamicLightness 0.97 0.2 1.5 11 0 := by
  obtain ⟨h1, h2, h3⟩ :=
    c5_dynamic_endpoints_monotone 0.97 0.2 1.5 (by norm_num) (by norm_num)
      (by norm_num) (by norm_num) 11 (Or.inl rfl)
  exact ⟨h1, h2, h3 0 1 (by norm_num) (by norm_num)⟩

/-- C8: a non-string or empty input makes `swatch` fail with `InvalidInput`,
for every parser/formatter collaborator (so the parser is never consulted). -/
theorem c8_invalid_input_before_parse (env : Collaborators)
    (input : JSInput) (o : SwatchOptionsIn) (h : isString input = false) :
    swatch env input o =
      Except.error (SwatchError.invalidInput inputStringMessage) := by
  unfold swatch
  rw [h]
  rfl

/-- Witness for C8 at a non-string input. -/
theorem c8_invalid_input_before_parse_witness :
    swatch constEnv JSInput.nonString emptyOptions =
      Except.error (SwatchError.invalidInput inputStringMessage) :=
  c8_invalid_input_before_parse constEnv JSInput.nonString emptyOptions rfl

/-- C2: whenever `swatch` returns a mapping, for any input, collaborators and
options (either scale), its key list is exactly the tone label scheme of the
resolved `swatchSteps` — 11 steps give 50, 100, ..., 900, 950 and 21 steps
give 0, 50, ..., 950, 1000 — one formatted string per label. -/
theorem c2_key_set (env : Collaborators) (input : JSInput)
    (o : SwatchOptionsIn) (m : List (ℕ × String))
    (h : swatch env input o = Except.ok m) :
    m.map Prod.fst = expectedTones (resolveOptions o).swatchSteps := by
  unfold swatch at h
  cases h0 : invariant (isString input) inputStringMessage with
  | error msg => rw [h0] at h; exact absurd h (by simp)
  | ok u =>
    rw [h0] at h
    exact swatchCore_keys env (inputStr input) (resolveOptions o) m h

/-- Witness for C2 at the constant collaborators and default options. -/
theorem c2_key_set_witness :
    ((paletteOf (resolveOptions emptyOptions)).map fun p =>
        (p.1, "c")).map Prod.fst =
      expectedTones (resolveOptions emptyOptions).swatchSteps :=
  c2_key_set constEnv (JSInput.str "red") emptyOptions _ swatch_constEnv_eval

/-- C6: with the fixed scale, `swatch` ignores `maxLightness`, `minLightness`
and `lightnessFactor` — two validated calls differing only in those options
return identical mappings — and the tone table used is exactly the static
table the spec enumerates for the chosen `swatchSteps`. -/
theorem c6_fixed_scale_ignores_curve_options (env : Collaborators)
    (input : JSInput) (o₁ o₂ : SwatchOptionsIn)
    (hsc₁ : (resolveOptions o₁).scale = SwatchScale.fixed)
    (hsc₂ : (resolveOptions o₂).scale = SwatchScale.fixed)
    (hfmt : (resolveOptions o₁).format = (resolveOptions o₂).format)
    (hst : (resolveOptions o₁).swatchSteps = (resolveOptions o₂).swatchSteps)
    (hv : (resolveOptions o₁).variant = (resolveOptions o₂).variant)
    (hval₁ : validOptions (resolveOptions o₁))
    (hval₂ : validOptions (resolveOptions o₂)) :
    swatch env input o₁ = swatch env input o₂ ∧
    paletteOf (resolveOptions o₁) =
      (if (resolveOptions o₁).swatchSteps = 11 then specFixedTable11
        else specFixedTable21).map fun p => (p.1, (p.2 : ℝ)) := by
  constructor
  · unfold swatch
    cases h0 : invariant (isString input) inputStringMessage with
    | error msg => rfl
    | ok u =>
      rw [swatchCore_valid env _ _ hval₁, swatchCore_valid env _ _ hval₂]
      cases hp : env.parseCSS (inputStr input) with
      | error m => rfl
      | ok lch0 =>
        rw [hfmt, hv, paletteOf_fixed_eq _ _ hsc₁ hsc₂ hst]
  · have h11 : fixedPalette11 = specFixedTable11 := by
      norm_num [fixedPalette11, specFixedTable11]
    have h21 : fixedPalette21 = specFixedTable21 := by
      norm_num [fixedPalette21, specFixedTable21]
    unfold paletteOf
    rw [hsc₁]
    show (if (resolveOptions o₁).swatchSteps = 11 then fixedPalette11
      else fixedPalette21).map (fun p => (p.1, (p.2 : ℝ))) = _
    rw [h11, h21]

/-- Witness for C6: the fixed-scale default call and a fixed-scale call with
different curve options produce the same output. -/
theorem c6_fixed_scale_ignores_curve_options_witness :
    swatch constEnv (JSInput.str "red") fixedOptions =
      swatch constEnv (JSInput.str "red")
        ⟨none, some 2, some 0.9, some 0.1, some SwatchScale.fixed, none, none⟩ ∧
    paletteOf (resolveOptions fixedOptions) =
      (if (resolveOptions fixedOptions).swatchSteps = 11 then specFixedTable11
        else specFixedTable21).map fun p => (p.1, (p.2 : ℝ)) :=
  c6_fixed_scale_ignores_curve_options constEnv (JSInput.str "red") fixedOptions
    ⟨none, some 2, some 0.9, some 0.1, some SwatchScale.fixed, none, none⟩
    rfl rfl rfl rfl rfl valid_fixed
    (by refine ⟨⟨?_, ?_, ?_⟩, Or.inl rfl⟩ <;> norm_num [resolveOptions])

/-- C7: for a non-empty string input and any collaborators (the parser in
particular is irrelevant, so the failure precedes parsing), `swatch` fails
with `InvalidOptions` exactly when the defaulted options violate
`maxLightness > minLightness`, `maxLightness ≤ 1`, `minLightness ≥ 0` or
`swatchSteps ∈ {11, 21}`, and never raises `InvalidOptions` otherwise. -/
theorem c7_invalid_options_gate (env : Collaborators) (s : String)
    (hs : s ≠ "") (o : SwatchOptionsIn) :
    (¬ validOptions (resolveOptions o) →
      ∃ msg, swatch env (JSInput.str s) o =
        Except.error (SwatchError.invalidOptions msg)) ∧
    (validOptions (resolveOptions o) →
      ∀ msg, swatch env (JSInput.str s) o ≠
        Except.error (SwatchError.invalidOptions msg)) := by
  rw [swatch_str env s o hs]
  constructor
  · intro hbad
    by_cases h1 : (resolveOptions o).maxLightness > (resolveOptions o).minLightness ∧
        (resolveOptions o).maxLightness ≤ 1 ∧ (resolveOptions o).minLightness ≥ 0
    · have h2 : ¬ ((resolveOptions o).swatchSteps = 11 ∨
          (resolveOptions o).swatchSteps = 21) := fun h2 => hbad ⟨h1, h2⟩
      refine ⟨stepsMessage, ?_⟩
      unfold swatchCore
      rw [decide_eq_true h1, decide_eq_false h2]
      rfl
    · refine ⟨lightnessMessage, ?_⟩
      unfold swatchCore
      rw [decide_eq_false h1]
      rfl
  · intro hval msg
    rw [swatchCore_valid env s (resolveOptions o) hval]
    cases hp : env.parseCSS s with
    | error m => simp
    | ok lch0 =>
      intro heq
      obtain ⟨m2, hm⟩ := formatAll_error_shape env _ _ _ heq
      cases hm

/-- Witness for C7: `swatchSteps = 7` is rejected with `InvalidOptions`. -/
theorem c7_invalid_options_gate_witness :
    ∃ msg, swatch constEnv (JSInput.str "red")
        ⟨none, none, none, none, none, some 7, none⟩ =
      Except.error (SwatchError.invalidOptions msg) :=
  (c7_invalid_options_gate constEnv "red" (by decide)
      ⟨none, none, none, none, none, some 7, none⟩).1
    (fun h => absurd h.2 (by decide))

/-- C9: the deep variant's extra lightness multiplication has no effect on
the output: `swatch` agrees with the program that omits `lch.l *= 0.7`,
because `shadeColor` overwrites the lightness of every tone. -/
theorem c9_deep_lightness_noop (env : Collaborators) (input : JSInput)
    (o : SwatchOptionsIn)
    (hv : (resolveOptions o).variant = SwatchVariant.deep) :
    swatch env input o = swatchNoDeep env input o := by
  unfold swatch swatchNoDeep
  cases h0 : invariant (isString input) inputStringMessage with
  | error msg => rfl
  | ok u => exact swatchCore_noDeep_eq env (inputStr input) (resolveOptions o)

/-- Witness for C9 at the deep variant and the constant collaborators. -/
theorem c9_deep_lightness_noop_witness :
    swatch constEnv (JSInput.str "red")
        ⟨none, none, none, none, none, none, some SwatchVariant.deep⟩ =
      swatchNoDeep constEnv (JSInput.str "red")
        ⟨none, none, none, none, none, none, some SwatchVariant.deep⟩ :=
  c9_deep_lightness_noop constEnv (JSInput.str "red")
    ⟨none, none, none, none, none, none, some SwatchVariant.deep⟩ rfl

/-- C10 counterexample: the claim "deep's rendered chroma is lower than
base's at every shared tone" fails for an achromatic input: at tone 50 of the
fixed 11-step table, deep's and base's chromas are both 0, so deep's is not
lower. -/
theorem c10_deep_vs_base_counterexample :
    ((50 : ℕ), ((0.97 : ℚ) : ℝ)) ∈ paletteOf (resolveOptions fixedOptions) ∧
    ¬ ((shadeColor (applyVariant ⟨0.5, 0, 120⟩ SwatchVariant.deep)
          ((0.97 : ℚ) : ℝ)).c <
        (shadeColor (applyVariant ⟨0.5, 0, 120⟩ SwatchVariant.base)
          ((0.97 : ℚ) : ℝ)).c) := by
  constructor
  · show ((50 : ℕ), ((0.97 : ℚ) : ℝ)) ∈
      List.map (fun p : ℕ × ℚ => (p.1, (p.2 : ℝ))) fixedPalette11
    exact List.mem_map_of_mem (fun p : ℕ × ℚ => (p.1, (p.2 : ℝ)))
      (show ((50 : ℕ), (0.97 : ℚ)) ∈ fixedPalette11 from List.mem_cons_self _ _)
  · rw [shade_applyVariant_c_zero ⟨0.5, 0, 120⟩ rfl SwatchVariant.deep,
      shade_applyVariant_c_zero ⟨0.5, 0, 120⟩ rfl SwatchVariant.base]
    exact lt_irrefl 0

/-- C10 amended: the tone-to-lightness table is variant-independent, and at
every shared tone deep's rendered chroma is at most base's; it is strictly
lower when additionally the parsed chroma is positive, the tone lightness is
strictly between 0 and 1, and deep's parabola-scaled chroma stays below the
0.4 clamp. -/
theorem c10_deep_vs_base_amended (r₁ r₂ : SwatchOptions)
    (hsc : r₁.scale = r₂.scale) (hst : r₁.swatchSteps = r₂.swatchSteps)
    (hmax : r₁.maxLightness = r₂.maxLightness)
    (hmin : r₁.minLightness = r₂.minLightness)
    (hlf : r₁.lightnessFactor = r₂.lightnessFactor)
    (lch : LCH) (hc : 0 ≤ lch.c) (t : ℕ) (L : ℝ)
    (hmem : (t, L) ∈ paletteOf r₁) :
    paletteOf r₁ = paletteOf r₂ ∧
    (shadeColor (applyVariant lch SwatchVariant.deep) L).c ≤
      (shadeColor (applyVariant lch SwatchVariant.base) L).c ∧
    (0 < lch.c → 0 < L → L < 1 →
      (0.8 : ℝ) * lch.c * (4 * L * (1 - L)) < 0.4 →
      (shadeColor (applyVariant lch SwatchVariant.deep) L).c <
        (shadeColor (applyVariant lch SwatchVariant.base) L).c) := by
  have hpal : paletteOf r₁ = paletteOf r₂ := by
    unfold paletteOf
    rw [hsc, hst, hmax, hmin, hlf]
  have h08 : ((variantChromaScale SwatchVariant.deep : ℚ) : ℝ) = 0.8 := by
    norm_num [variantChromaScale]
  have h1 : ((variantChromaScale SwatchVariant.base : ℚ) : ℝ) = 1 := by
    norm_num [variantChromaScale]
  have hdc : (applyVariant lch SwatchVariant.deep).c = lch.c * 0.8 := by
    rw [applyVariant_c, h08]
  have hbc : (applyVariant lch SwatchVariant.base).c = lch.c * 1 := by
    rw [applyVariant_c, h1]
  rcases eq_or_lt_of_le hc with hc0 | hcpos
  · have hz : lch.c = 0 := hc0.symm
    refine ⟨hpal, ?_, ?_⟩
    · rw [shade_applyVariant_c_zero lch hz SwatchVariant.deep L,
        shade_applyVariant_c_zero lch hz SwatchVariant.base L]
    · intro hcp hL0 hL1 hlt
      rw [hz] at hcp
      exact absurd hcp (lt_irrefl 0)
  · have hdne : lch.c * 0.8 ≠ 0 := by positivity
    have hbne : lch.c * 1 ≠ 0 := by positivity
    have hdchroma : (shadeColor (applyVariant lch SwatchVariant.deep) L).c =
        clamp (lch.c * 0.8 * (4 * L * (1 - L))) 0 0.4 := by
      rw [shadeColor_c, hdc, if_neg hdne]
    have hbchroma : (shadeColor (applyVariant lch SwatchVariant.base) L).c =
        clamp (lch.c * 1 * (4 * L * (1 - L))) 0 0.4 := by
      rw [shadeColor_c, hbc, if_neg hbne]
    refine ⟨hpal, ?_, ?_⟩
    · rw [hdchroma, hbchroma]
      rcases le_or_lt 0 (4 * L * (1 - L)) with hsgn | hsgn
      · exact clamp_mono 0 0.4 (by nlinarith)
      · rw [clamp_of_nonpos _ (by nlinarith) (by norm_num),
          clamp_of_nonpos _ (by nlinarith) (by norm_num)]
    · intro hcp hL0 hL1 hlt
      rw [hdchroma, hbchroma]
      have hsgn : 0 < 4 * L * (1 - L) := by nlinarith
      have hdval : lch.c * 0.8 * (4 * L * (1 - L)) =
          (0.8 : ℝ) * lch.c * (4 * L * (1 - L)) := by ring
      have hd0 : 0 ≤ lch.c * 0.8 * (4 * L * (1 - L)) := by nlinarith
      rw [clamp_of_mem hd0 (by rw [hdval]; linarith)]
      rcases le_or_lt (lch.c * 1 * (4 * L * (1 - L))) 0.4 with hb4 | hb4
      · rw [clamp_of_mem (by nlinarith) hb4]
        nlinarith
      · have hbclamp : clamp (lch.c * 1 * (4 * L * (1 - L))) 0 0.4 = 0.4 := by
          unfold clamp
          rw [max_eq_left (by nlinarith), min_eq_right (le_of_lt hb4)]
        rw [hbclamp]
        linarith [hdval.ge, hdval.le]

/-- Witness for the amended C10 at a concrete chromatic color and tone 50 of
the fixed 11-step table. -/
theorem c10_deep_vs_base_amended_witness :
    paletteOf (resolveOptions fixedOptions) =
      paletteOf (resolveOptions fixedOptions) ∧
    (shadeColor (applyVariant testColor SwatchVariant.deep)
        ((0.97 : ℚ) : ℝ)).c ≤
      (shadeColor (applyVariant testColor SwatchVariant.base)
        ((0.97 : ℚ) : ℝ)).c ∧
    (0 < testColor.c → 0 < ((0.97 : ℚ) : ℝ) → ((0.97 : ℚ) : ℝ) < 1 →
      (0.8 : ℝ) * testColor.c *
          (4 * ((0.97 : ℚ) : ℝ) * (1 - ((0.97 : ℚ) : ℝ))) < 0.4 →
      (shadeColor (applyVariant testColor SwatchVariant.deep)
          ((0.97 : ℚ) : ℝ)).c <
        (shadeColor (applyVariant testColor SwatchVariant.base)
          ((0.97 : ℚ) : ℝ)).c) := by
  refine c10_deep_vs_base_amended (resolveOptions fixedOptions)
    (resolveOptions fixedOptions) rfl rfl rfl rfl rfl testColor
    (by norm_num [testColor]) 50 ((0.97 : ℚ) : ℝ) ?_
  show ((50 : ℕ), ((0.97 : ℚ) : ℝ)) ∈
    List.map (fun p : ℕ × ℚ => (p.1, (p.2 : ℝ))) fixedPalette11
  exact List.mem_map_of_mem (fun p : ℕ × ℚ => (p.1, (p.2 : ℝ)))
    (show ((50 : ℕ), (0.97 : ℚ)) ∈ fixedPalette11 from List.mem_cons_self _ _)

end Claims

end Colorizr
